import Mathlib

/-!
Verification development for the task/document reconciliation layer of the
"Personal AI Productivity Assistant" repository.

The definitions below are shallow embeddings of the TypeScript source:
  * `src/src/types/index.ts`       — the data model (`Task`, `TaskStats`, ...)
  * `src/src/lib/task-utils.ts`    — stats / filter / sort / update helpers
  * `src/src/lib/ai-client.ts`     — the AI response normalizer
  * `src/src/app/api/tasks/ai-generate/route.ts` and
    `src/src/app/api/documents/extract-tasks/route.ts` — the task reconciler

Timestamps (`Date` values) are embedded as `Int` milliseconds since the epoch.
Functions that read the wall clock (`new Date()`) take the current time `now`
as an explicit parameter.  The fixed local-timezone offset (minutes west, in
milliseconds) is likewise an explicit parameter `off` where local-midnight
arithmetic occurs; daylight-saving transitions are outside the model.
-/

namespace TaskApp

/-- `Task.priority` from `src/src/types/index.ts`: one of the four literals. -/
inductive Priority where
  | low
  | medium
  | high
  | urgent
deriving DecidableEq, Repr

/-- `Task.status` from `src/src/types/index.ts`: one of the four literals. -/
inductive Status where
  | todo
  | inProgress
  | completed
  | cancelled
deriving DecidableEq, Repr

/-- The `Task` interface of `src/src/types/index.ts`.  Optional fields are
`Option`s; `Date` fields are `Int` millisecond timestamps. -/
structure Task where
  id : String
  title : String
  description : Option String := none
  priority : Priority
  status : Status
  category : String
  dueDate : Option Int := none
  createdAt : Int
  updatedAt : Int
  tags : List String := []
  aiGenerated : Bool
  sourceDocument : Option String := none
deriving DecidableEq, Repr

/-- The `TaskStats` interface of `src/src/types/index.ts`.  The two JS record
histograms are embedded extensionally as functions (a key that was never
incremented reads 0, matching the lazily-created JS record defaulted to 0). -/
structure TaskStats where
  total : Nat
  completed : Nat
  inProgress : Nat
  overdue : Nat
  byPriority : Priority → Nat
  byCategory : String → Nat

/-- The `priorityOrder` record inside `sortTasks`
(`src/src/lib/task-utils.ts` line 78): urgent=4, high=3, medium=2, low=1. -/
def priorityOrder : Priority → Int
  | .urgent => 4
  | .high => 3
  | .medium => 2
  | .low => 1

/-- The `statusOrder` record inside `sortTasks`
(`src/src/lib/task-utils.ts` line 97): todo=1, in-progress=2, completed=3,
cancelled=4. -/
def statusOrder : Status → Int
  | .todo => 1
  | .inProgress => 2
  | .completed => 3
  | .cancelled => 4

/-- `SortOption` from `src/src/types/index.ts`. -/
inductive SortOption where
  | priority
  | dueDate
  | createdAt
  | title
  | status
deriving DecidableEq, Repr

/-- Millisecond timestamp of `new Date('9999-12-31')`, the sentinel used by
`sortTasks` for tasks without a due date. -/
def maxDateSentinel : Int := 253402214400000

/-- Model of JS `String.prototype.localeCompare` restricted to the default
locale on plain code points: sign of the lexicographic comparison.  Only the
`title` branch of `sortTasks` uses it; no claim exercises it. -/
def localeCompareInt (a b : String) : Int :=
  match compare a b with
  | .lt => -1
  | .eq => 0
  | .gt => 1

/-- The comparator computed by one call of the arrow function inside
`sortTasks` (`src/src/lib/task-utils.ts` lines 73-103), before the
ascending/descending negation is applied. -/
def taskComparison (sortBy : SortOption) (a b : Task) : Int :=
  match sortBy with
  | .priority => priorityOrder a.priority - priorityOrder b.priority
  | .dueDate => (a.dueDate.getD maxDateSentinel) - (b.dueDate.getD maxDateSentinel)
  | .createdAt => a.createdAt - b.createdAt
  | .title => localeCompareInt a.title b.title
  | .status => statusOrder a.status - statusOrder b.status

/-- `sortTasks` (`src/src/lib/task-utils.ts` lines 72-107).  JS
`Array.prototype.sort` is specified (ES2019+) to be a stable sort consistent
with the comparator; with the comparator a total preorder, the stable sorted
permutation is unique, and insertion sort computes it.  `ascending` defaults
to `false` in the source (`ascending = false`). -/
def sortTasks (tasks : List Task) (sortBy : SortOption) (ascending : Bool := false) : List Task :=
  List.insertionSort
    (fun a b =>
      (if ascending then taskComparison sortBy a b else -(taskComparison sortBy a b)) ≤ 0)
    tasks

/-- The overdue test inside `calculateTaskStats`
(`src/src/lib/task-utils.ts` line 133):
`task.dueDate && task.dueDate < now && task.status !== 'completed'`.
Note it does NOT exclude cancelled tasks. -/
def statsOverdueTest (now : Int) (t : Task) : Bool :=
  match t.dueDate with
  | none => false
  | some d => decide (d < now) && decide (t.status ≠ Status.completed)

/-- One iteration of the `tasks.forEach` body of `calculateTaskStats`
(`src/src/lib/task-utils.ts` lines 124-145). -/
def statsStep (now : Int) (s : TaskStats) (t : Task) : TaskStats :=
  { s with
    completed := if t.status = Status.completed then s.completed + 1 else s.completed
    inProgress := if t.status = Status.inProgress then s.inProgress + 1 else s.inProgress
    overdue := if statsOverdueTest now t then s.overdue + 1 else s.overdue
    byPriority := fun p => if p = t.priority then s.byPriority p + 1 else s.byPriority p
    byCategory := fun c => if c = t.category then s.byCategory c + 1 else s.byCategory c }

/-- `calculateTaskStats` (`src/src/lib/task-utils.ts` lines 112-148), with the
wall clock `now` (`new Date()` at line 122) explicit. -/
def calculateTaskStats (now : Int) (tasks : List Task) : TaskStats :=
  tasks.foldl (statsStep now)
    { total := tasks.length
      completed := 0
      inProgress := 0
      overdue := 0
      byPriority := fun _ => 0
      byCategory := fun _ => 0 }

/-- The filter predicate of `getOverdueTasks`
(`src/src/lib/task-utils.ts` lines 172-177):
`task.dueDate && task.dueDate < now && task.status !== 'completed' &&
task.status !== 'cancelled'`. -/
def overdueListTest (now : Int) (t : Task) : Bool :=
  match t.dueDate with
  | none => false
  | some d =>
      decide (d < now) && decide (t.status ≠ Status.completed)
        && decide (t.status ≠ Status.cancelled)

/-- `getOverdueTasks` (`src/src/lib/task-utils.ts` lines 170-178), with the
wall clock `now` explicit. -/
def getOverdueTasks (now : Int) (tasks : List Task) : List Task :=
  tasks.filter (overdueListTest now)

/-- Milliseconds per day. -/
def msPerDay : Int := 86400000

/-- `date.setHours(0, 0, 0, 0)` on a timestamp `t` under a fixed local-time
offset `off` (milliseconds added to UTC to obtain local time): the timestamp
of the most recent local midnight. -/
def localDayFloor (off t : Int) : Int :=
  msPerDay * ((t + off) / msPerDay) - off

/-- `getTasksDueToday` (`src/src/lib/task-utils.ts` lines 153-165).  `today`
is `new Date()` floored to local midnight; `tomorrow` is `setDate(+1)`, one
day later under the fixed offset.  Each due date is floored to its own local
midnight before the range test, exactly as in the source. -/
def getTasksDueToday (off now : Int) (tasks : List Task) : List Task :=
  let today := localDayFloor off now
  let tomorrow := today + msPerDay
  tasks.filter (fun t =>
    match t.dueDate with
    | none => false
    | some d =>
        decide (today ≤ localDayFloor off d) && decide (localDayFloor off d < tomorrow))

/-- A `Partial<Task>` argument of `updateTask`: `some v` means the key is
present in the JS object with value `v`, `none` that it is absent.  The inner
`Option` of `description`, `dueDate` and `sourceDocument` mirrors those
fields being optional in `Task` itself. -/
structure TaskUpdate where
  id : Option String := none
  title : Option String := none
  description : Option (Option String) := none
  priority : Option Priority := none
  status : Option Status := none
  category : Option String := none
  dueDate : Option (Option Int) := none
  createdAt : Option Int := none
  updatedAt : Option Int := none
  tags : Option (List String) := none
  aiGenerated : Option Bool := none
  sourceDocument : Option (Option String) := none
deriving DecidableEq, Repr

/-- `updateTask` (`src/src/lib/task-utils.ts` lines 199-205):
`{ ...task, ...updates, updatedAt: new Date() }`.  Every key present in
`updates` overwrites the one from `task` — including `id` and `createdAt` —
and `updatedAt` is then overwritten with the current time regardless. -/
def updateTask (task : Task) (updates : TaskUpdate) (now : Int) : Task :=
  { id := updates.id.getD task.id
    title := updates.title.getD task.title
    description := updates.description.getD task.description
    priority := updates.priority.getD task.priority
    status := updates.status.getD task.status
    category := updates.category.getD task.category
    dueDate := updates.dueDate.getD task.dueDate
    createdAt := updates.createdAt.getD task.createdAt
    updatedAt := now
    tags := updates.tags.getD task.tags
    aiGenerated := updates.aiGenerated.getD task.aiGenerated
    sourceDocument := updates.sourceDocument.getD task.sourceDocument }

/-- A JSON value, the dynamic values `JSON.parse` produces.  Numbers are
restricted to integers: no claim exercises fractional or exponent forms. -/
inductive Json where
  | null
  | bool (b : Bool)
  | num (n : Int)
  | str (s : String)
  | arr (items : List Json)
  | obj (fields : List (String × Json))

namespace Json

/-- JS property lookup `v.k` on a parsed value: `none` when the key is absent
or the value is not an object (JS would yield `undefined`). -/
def getKey : Json → String → Option Json
  | .obj fields, k => (fields.find? (fun p => p.1 = k)).map (fun p => p.2)
  | _, _ => none

/-- JS truthiness of a parsed JSON value: `false`, `0`, `""` and `null` are
falsy; every array and object is truthy. -/
def jsTruthy : Json → Bool
  | .null => false
  | .bool b => b
  | .num n => decide (n ≠ 0)
  | .str s => decide (s ≠ "")
  | .arr _ => true
  | .obj _ => true

end Json

/-- Skip JSON insignificant whitespace. -/
def skipWs (cs : List Char) : List Char :=
  cs.dropWhile (fun c => c = ' ' || c = '\n' || c = '\t' || c = '\r')

/-- Parse the body of a JSON string after the opening quote, up to the
closing quote.  Escapes cover the forms the claims exercise. -/
def parseStrBody : List Char → List Char → Option (String × List Char)
  | [], _ => none
  | '\\' :: e :: rest, acc =>
      parseStrBody rest ((if e = 'n' then '\n' else if e = 't' then '\t' else e) :: acc)
  | '"' :: rest, acc => some (String.mk acc.reverse, rest)
  | c :: rest, acc => parseStrBody rest (c :: acc)

/-- Parse a run of decimal digits. -/
def parseDigits (cs : List Char) : Option (Nat × List Char) :=
  let ds := cs.takeWhile Char.isDigit
  if ds.isEmpty then none
  else some (ds.foldl (fun n c => n * 10 + (c.toNat - 48)) 0, cs.dropWhile Char.isDigit)

/-- Parse a JSON integer (optional leading minus). -/
def parseNumber (cs : List Char) : Option (Json × List Char) :=
  match cs with
  | '-' :: rest =>
      match parseDigits rest with
      | some (n, r) => some (Json.num (-(Int.ofNat n)), r)
      | none => none
  | _ =>
      match parseDigits cs with
      | some (n, r) => some (Json.num (Int.ofNat n), r)
      | none => none

/-- Drop an expected literal tail (e.g. `rue` after `t`). -/
def dropLit : List Char → List Char → Option (List Char)
  | [], cs => some cs
  | p :: ps, c :: cs => if c = p then dropLit ps cs else none
  | _ :: _, [] => none

/-- Parser continuation: a fresh value, or the remaining items of an array /
fields of an object being accumulated. -/
inductive PMode where
  | val
  | arrRest (acc : List Json)
  | objRest (acc : List (String × Json))

/-- The recursive core of the JSON reader, fuelled for termination. -/
def parseCore : Nat → PMode → List Char → Option (Json × List Char)
  | 0, _, _ => none
  | f + 1, PMode.val, cs =>
      match skipWs cs with
      | [] => none
      | c :: rest =>
          if c = '"' then
            match parseStrBody rest [] with
            | some (s, r) => some (Json.str s, r)
            | none => none
          else if c = '[' then
            match skipWs rest with
            | ']' :: r2 => some (Json.arr [], r2)
            | _ => parseCore f (PMode.arrRest []) rest
          else if c = '{' then
            match skipWs rest with
            | '}' :: r2 => some (Json.obj [], r2)
            | _ => parseCore f (PMode.objRest []) rest
          else if c = 't' then
            match dropLit ['r', 'u', 'e'] rest with
            | some r => some (Json.bool true, r)
            | none => none
          else if c = 'f' then
            match dropLit ['a', 'l', 's', 'e'] rest with
            | some r => some (Json.bool false, r)
            | none => none
          else if c = 'n' then
            match dropLit ['u', 'l', 'l'] rest with
            | some r => some (Json.null, r)
            | none => none
          else if c = '-' || c.isDigit then parseNumber (c :: rest)
          else none
  | f + 1, PMode.arrRest acc, cs =>
      match parseCore f PMode.val cs with
      | none => none
      | some (v, r) =>
          match skipWs r with
          | ',' :: r2 => parseCore f (PMode.arrRest (v :: acc)) r2
          | ']' :: r2 => some (Json.arr (v :: acc).reverse, r2)
          | _ => none
  | f + 1, PMode.objRest acc, cs =>
      match skipWs cs with
      | '"' :: r =>
          match parseStrBody r [] with
          | none => none
          | some (k, r2) =>
              match skipWs r2 with
              | ':' :: r3 =>
                  match parseCore f PMode.val r3 with
                  | none => none
                  | some (v, r4) =>
                      match skipWs r4 with
                      | ',' :: r5 => parseCore f (PMode.objRest ((k, v) :: acc)) r5
                      | '}' :: r5 => some (Json.obj ((k, v) :: acc).reverse, r5)
                      | _ => none
              | _ => none
      | _ => none

/-- Model of `JSON.parse` (a platform builtin) over the integer-number JSON
fragment: `some v` on a complete well-formed text, `none` where `JSON.parse`
throws.  The fuel `2·length + 2` exceeds the recursion depth any input of
that length can force, since every recursive step consumes input. -/
def jsonParse (s : String) : Option Json :=
  let cs := s.toList
  match parseCore (2 * cs.length + 2) PMode.val cs with
  | some (v, rest) => if (skipWs rest).isEmpty then some v else none
  | none => none

/-- Index of the last occurrence of `ch`. -/
def lastIdxOf (ch : Char) (cs : List Char) : Option Nat :=
  match cs.reverse.findIdx? (fun c => c = ch) with
  | some k => some (cs.length - 1 - k)
  | none => none

/-- Model of `response.match(/\{[\s\S]*\}/)` (and its `[`/`]` twin): the
regex engine matches at the earliest start position, and the greedy `[\s\S]*`
then runs to the last closer in the string.  A match therefore exists exactly
when the first `op` precedes the last `cl`, and it spans the two. -/
def matchGreedySpan (op cl : Char) (s : String) : Option String :=
  let cs := s.toList
  match cs.findIdx? (fun c => c = op), lastIdxOf cl cs with
  | some i, some j =>
      if i < j then some (String.mk ((cs.drop i).take (j + 1 - i))) else none
  | _, _ => none

/-- The shared extract-then-parse pipeline of the three normalizer methods in
`src/src/lib/ai-client.ts`: `none` when either the regex finds no span or
`JSON.parse` throws on it. -/
def extractParse (op cl : Char) (s : String) : Option Json :=
  match matchGreedySpan op cl s with
  | some sub => jsonParse sub
  | none => none

/-- The `ChatResponse` object built by `parseAIResponse`.  `response` may be
any parsed JSON value (the source does not validate it); the other three keys
are `none` when absent from the built object (JS `undefined`). -/
structure ChatResponse where
  response : Json
  suggestions : Option Json
  generatedTasks : Option Json
  actions : Option Json

/-- The fallback `ChatResponse` of `parseAIResponse`
(`src/src/lib/ai-client.ts` lines 286-290): trimmed raw text, empty
suggestion and task lists, no `actions` key. -/
def chatFallback (response : String) : ChatResponse :=
  { response := Json.str response.trim
    suggestions := some (Json.arr [])
    generatedTasks := some (Json.arr [])
    actions := none }

/-- `parseAIResponse` (`src/src/lib/ai-client.ts` lines 269-291).  On a
successful greedy-span parse it builds the structured reply
(`parsed.response || response` keeps the raw string when the parsed field is
absent or falsy); any regex miss or `JSON.parse` throw yields the fallback. -/
def parseAIResponse (response : String) : ChatResponse :=
  match extractParse '{' '}' response with
  | some parsed =>
      { response :=
          match parsed.getKey "response" with
          | some v => if v.jsTruthy then v else Json.str response
          | none => Json.str response
        suggestions := parsed.getKey "suggestions"
        generatedTasks := parsed.getKey "generatedTasks"
        actions := parsed.getKey "actions" }
  | none => chatFallback response

/-- The fallback object of `parseDocumentAnalysis`
(`src/src/lib/ai-client.ts` lines 303-309): raw text as summary, four empty
lists. -/
def docFallback (response : String) : Json :=
  Json.obj
    [("summary", Json.str response), ("insights", Json.arr []),
     ("extractedTasks", Json.arr []), ("keyTopics", Json.arr []),
     ("actionItems", Json.arr [])]

/-- `parseDocumentAnalysis` (`src/src/lib/ai-client.ts` lines 293-310).  On a
successful parse the parsed object is returned AS-IS (the `as`-free
`return JSON.parse(jsonMatch[0])` merges no defaults); otherwise the
fallback. -/
def parseDocumentAnalysis (response : String) : Json :=
  match extractParse '{' '}' response with
  | some v => v
  | none => docFallback response

/-- `parseTasksFromResponse` (`src/src/lib/ai-client.ts` lines 312-323):
square-bracket greedy span, empty array on any failure. -/
def parseTasksFromResponse (response : String) : Json :=
  match extractParse '[' ']' response with
  | some v => v
  | none => Json.arr []

/-- One "task-like" partial record from AI output (the untyped `taskData` the
routes map over): every field optional, enum-like fields raw strings. -/
structure TaskData where
  title : Option String := none
  description : Option String := none
  priority : Option String := none
  category : Option String := none
  tags : Option (List String) := none
  dueDate : Option String := none
  sourceDocument : Option String := none
deriving DecidableEq, Repr

/-- The task object built by the two reconciling routes and force-cast
`as Task`.  Because the source performs no validation, `priority` and
`status` stay raw strings here; `dueDate = some none` embeds a stored JS
`Invalid Date` (a `Date` whose time is `NaN`), while `dueDate = none` means
the key is absent. -/
structure GenTask where
  id : String
  title : String
  description : String
  priority : String
  status : String
  category : String
  createdAt : Int
  updatedAt : Int
  tags : List String
  aiGenerated : Bool
  dueDate : Option (Option Int)
  sourceDocument : Option String
deriving DecidableEq, Repr

/-- JS `x || d` for an optional string `x`: the default replaces an absent
(`undefined`/`null`) or empty (falsy) string. -/
def jsOrString (x : Option String) (d : String) : String :=
  match x with
  | none => d
  | some s => if s = "" then d else s

/-- Days from the civil epoch 1970-01-01 for a proleptic Gregorian date
(the standard era-based civil-calendar computation, `Int.ediv` flooring). -/
def daysFromCivil (y m d : Int) : Int :=
  let y2 := if m ≤ 2 then y - 1 else y
  let era := y2 / 400
  let yoe := y2 - era * 400
  let mp := (m + 9) % 12
  let doy := (153 * mp + 2) / 5 + d - 1
  let doe := yoe * 365 + yoe / 4 - yoe / 100 + doy
  era * 146097 + doe - 719468

/-- Model of the JS `Date` constructor on strings (a platform builtin) over
the day-precision ISO fragment `YYYY-MM-DD` (parsed as UTC midnight, as JS
does for date-only forms): `some ms` for a well-formed date, `none` for the
`Invalid Date` result on anything else.  Strings outside this fragment are
treated as invalid; every concrete date string in this development is inside
it or deliberately invalid. -/
def jsDateParse (s : String) : Option Int :=
  match s.toList with
  | [y1, y2, y3, y4, '-', m1, m2, '-', d1, d2] =>
      if (y1.isDigit && y2.isDigit && y3.isDigit && y4.isDigit
          && m1.isDigit && m2.isDigit && d1.isDigit && d2.isDigit) then
        let yv : Int := Int.ofNat
          (((y1.toNat - 48) * 10 + (y2.toNat - 48)) * 100
            + (y3.toNat - 48) * 10 + (y4.toNat - 48))
        let mv : Int := Int.ofNat ((m1.toNat - 48) * 10 + (m2.toNat - 48))
        let dv : Int := Int.ofNat ((d1.toNat - 48) * 10 + (d2.toNat - 48))
        if 1 ≤ mv ∧ mv ≤ 12 ∧ 1 ≤ dv ∧ dv ≤ 31 then
          some (daysFromCivil yv mv dv * msPerDay)
        else none
      else none
  | _ => none

/-- The `...(taskData.dueDate && { dueDate: new Date(taskData.dueDate) })`
spread of the two routes: the key is omitted exactly when the string is
absent or empty (falsy); a present nonempty string always puts the parsed
`Date` in — valid or not. -/
def spreadDueDate (x : Option String) : Option (Option Int) :=
  match x with
  | none => none
  | some s => if s = "" then none else some (jsDateParse s)

/-- The `processedTasks` map body of
`src/src/app/api/tasks/ai-generate/route.ts` (lines 22-40), with the
generated id and the wall clock explicit. -/
def processGeneratedTask (id : String) (now : Int) (taskData : TaskData) : GenTask :=
  { id := id
    title := jsOrString taskData.title "Untitled Task"
    description := jsOrString taskData.description ""
    priority := jsOrString taskData.priority "medium"
    status := "todo"
    category := jsOrString taskData.category "general"
    createdAt := now
    updatedAt := now
    tags := taskData.tags.getD []
    aiGenerated := true
    dueDate := spreadDueDate taskData.dueDate
    sourceDocument := none }

/-- The `processedTasks` map body of
`src/src/app/api/documents/extract-tasks/route.ts` (lines 67-86): identical
to the generator's, plus `sourceDocument: document.name`. -/
def processExtractedTask (docName id : String) (now : Int) (taskData : TaskData) : GenTask :=
  { processGeneratedTask id now taskData with sourceDocument := some docName }

/-- The four valid priority literals of the `Task` interface. -/
def validPriorities : List String := ["low", "medium", "high", "urgent"]

/-- Modelled from the spec: the edge-case policy of §4.1 as the claim words
it — "the span from the first `{`/`[` found scanning left-to-right through
its corresponding outer close".  The corresponding close is found by nesting
depth (the spec names no treatment of brackets inside string literals, so
none is modelled). -/
def balancedSpanAux (op cl : Char) : List Char → Nat → List Char → Option (List Char)
  | [], _, _ => none
  | c :: rest, dep, acc =>
      if c = op then balancedSpanAux op cl rest (dep + 1) (c :: acc)
      else if c = cl then
        if dep = 1 then some (c :: acc).reverse
        else balancedSpanAux op cl rest (dep - 1) (c :: acc)
      else balancedSpanAux op cl rest dep (c :: acc)

/-- Modelled from the spec: the first bracketed span, per the claim wording
(see `balancedSpanAux`). -/
def specFirstSpan (op cl : Char) (s : String) : Option String :=
  match (s.toList.dropWhile (fun c => ¬ c = op)) with
  | [] => none
  | c :: rest => (balancedSpanAux op cl (c :: rest) 0 []).map String.mk

/-- Modelled from the spec: `parseDocumentAnalysis` as the claim describes
it — parse the first balanced span, total failure otherwise. -/
def specParseDocumentAnalysis (response : String) : Json :=
  match specFirstSpan '{' '}' response with
  | some sub =>
      match jsonParse sub with
      | some v => v
      | none => docFallback response
  | none => docFallback response

/-! Concrete inputs used by counterexamples and witnesses. -/

/-- The document-analysis raw response named by the spec (§8). -/
def c4Input : String :=
  "Some preamble \x7b\"summary\":\"ok\",\"insights\":[\"a\",\"b\"]\x7d trailing text"

/-- The result the claim asserts for `c4Input`: all five keys present,
unparsed ones as empty lists. -/
def c4Claimed : Json :=
  Json.obj
    [("summary", Json.str "ok"), ("insights", Json.arr [Json.str "a", Json.str "b"]),
     ("extractedTasks", Json.arr []), ("keyTopics", Json.arr []),
     ("actionItems", Json.arr [])]

/-- Two disjoint bracketed regions: the first balanced span is well-formed
JSON, the greedy first-to-last span is not. -/
def c5Input : String := "\x7b\"a\":\"x\"\x7d \x7b\"b\":\"y\"\x7d"

/-- A raw model reply containing no JSON at all. -/
def plainReply : String := "Sure! Here is your answer without JSON."

/-- An AI record carrying a priority outside the four valid literals. -/
def c2Record : TaskData := { title := some "Buy milk", priority := some "critical" }

/-- An AI record whose due-date string is present but unparseable. -/
def c3Record : TaskData := { title := some "Prepare report", dueDate := some "not-a-date" }

/-- A concrete well-formed task. -/
def exTask : Task :=
  { id := "task_a", title := "write minutes", priority := Priority.medium,
    status := Status.todo, category := "general", createdAt := 0, updatedAt := 0,
    tags := [], aiGenerated := false }

/-- A cancelled task whose due date is in the past (relative to `now = 1`). -/
def cancelledPastDue : Task :=
  { id := "task_b", title := "old errand", priority := Priority.low,
    status := Status.cancelled, category := "general", dueDate := some 0,
    createdAt := 0, updatedAt := 0, tags := [], aiGenerated := false }

/-- An update object that supplies new `id` and `createdAt` values. -/
def c6Update : TaskUpdate := { id := some "task_z", createdAt := some 99 }

/-- The empty update object. -/
def emptyUpdate : TaskUpdate := {}

/-! Theorems. -/

/-- The overdue counter accumulated by `calculateTaskStats` is the count of
tasks passing `statsOverdueTest`. -/
theorem foldl_statsStep_overdue (now : Int) :
    ∀ (l : List Task) (s : TaskStats),
      (l.foldl (statsStep now) s).overdue = s.overdue + l.countP (statsOverdueTest now)
  | [], s => by simp [List.countP_nil]
  | t :: ts, s => by
      rw [List.foldl_cons, foldl_statsStep_overdue now ts, List.countP_cons]
      cases h : statsOverdueTest now t
      all_goals simp [statsStep, h]
      all_goals try omega

/-- Pointwise: the stats overdue test splits into the overdue-list test plus
the cancelled-and-past-due case (the two are disjoint). -/
theorem overdue_test_split (now : Int) (t : Task) :
    (if statsOverdueTest now t then (1 : Nat) else 0)
      = (if overdueListTest now t then 1 else 0)
        + (if statsOverdueTest now t && decide (t.status = Status.cancelled)
            then 1 else 0) := by
  cases hdd : t.dueDate with
  | none => simp [statsOverdueTest, overdueListTest, hdd]
  | some d =>
      by_cases hlt : d < now
      · cases hst : t.status <;>
          simp [statsOverdueTest, overdueListTest, hdd, hst, hlt]
      · simp [statsOverdueTest, overdueListTest, hdd, hlt]

/-- Count form of `overdue_test_split` over a whole collection. -/
theorem countP_overdue_split (now : Int) :
    ∀ l : List Task,
      l.countP (statsOverdueTest now)
        = l.countP (overdueListTest now)
          + l.countP (fun t => statsOverdueTest now t && decide (t.status = Status.cancelled))
  | [] => rfl
  | t :: ts => by
      rw [List.countP_cons, List.countP_cons, List.countP_cons,
          countP_overdue_split now ts]
      have h := overdue_test_split now t
      simp only at h ⊢
      omega

/-- C1 (amended): the stats overdue count uses the weaker predicate that
excludes only completed tasks, so it equals the length of the overdue list
plus the number of cancelled tasks whose due date is strictly past — the two
agree exactly on collections without a cancelled past-due task. -/
theorem c1_overdue_count_decomposition (now : Int) (tasks : List Task) :
    (calculateTaskStats now tasks).overdue
      = (getOverdueTasks now tasks).length
        + (tasks.filter
            (fun t => statsOverdueTest now t && decide (t.status = Status.cancelled))).length := by
  unfold calculateTaskStats getOverdueTasks
  rw [foldl_statsStep_overdue now tasks, countP_overdue_split now tasks]
  simp [List.countP_eq_length_filter]

/-- C1 (counterexample): one cancelled task with a past due date: the stats
counter reports 1 overdue task while the overdue list is empty, so the two
overdue notions are evaluated with different predicates. -/
theorem c1_cancelled_task_counterexample :
    (calculateTaskStats 1 [cancelledPastDue]).overdue = 1
    ∧ (getOverdueTasks 1 [cancelledPastDue]).length = 0
    ∧ (calculateTaskStats 1 [cancelledPastDue]).overdue
        ≠ (getOverdueTasks 1 [cancelledPastDue]).length := by
  exact ⟨by decide, by decide, by decide⟩

/-- Inserting an element satisfying `q` that precedes (under `r`) everything
satisfying `q` prepends it to the `q`-filtered view. -/
theorem filter_orderedInsert_pos {α : Type} (r : α → α → Prop) [DecidableRel r]
    (q : α → Bool) (x : α) (hx : ∀ b, q b = true → r x b) (hq : q x = true) :
    ∀ l : List α, (l.orderedInsert r x).filter q = x :: l.filter q
  | [] => by simp [hq]
  | b :: t => by
      by_cases hr : r x b
      · simp [List.orderedInsert, hr, List.filter_cons, hq]
      · have hb : q b = false := by
          cases hqb : q b
          · rfl
          · exact absurd (hx b hqb) hr
        simp [List.orderedInsert, hr, List.filter_cons, hb,
              filter_orderedInsert_pos r q x hx hq t]

/-- Inserting an element not satisfying `q` leaves the `q`-filtered view
unchanged. -/
theorem filter_orderedInsert_neg {α : Type} (r : α → α → Prop) [DecidableRel r]
    (q : α → Bool) (x : α) (hq : q x = false) :
    ∀ l : List α, (l.orderedInsert r x).filter q = l.filter q
  | [] => by simp [hq]
  | b :: t => by
      by_cases hr : r x b
      · simp [List.orderedInsert, hr, List.filter_cons, hq]
      · simp [List.orderedInsert, hr, List.filter_cons,
              filter_orderedInsert_neg r q x hq t]

/-- Stability of insertion sort: a filter over a class of mutually
`r`-comparable elements is preserved, hence those elements keep their input
order. -/
theorem filter_insertionSort_stable {α : Type} (r : α → α → Prop) [DecidableRel r]
    (q : α → Bool) (hcomp : ∀ a b, q a = true → q b = true → r a b) :
    ∀ l : List α, (l.insertionSort r).filter q = l.filter q
  | [] => rfl
  | x :: t => by
      have hstep : (x :: t).insertionSort r = (t.insertionSort r).orderedInsert r x := rfl
      cases hqx : q x with
      | false =>
          rw [hstep, filter_orderedInsert_neg r q x hqx _,
              filter_insertionSort_stable r q hcomp t]
          simp [List.filter_cons, hqx]
      | true =>
          rw [hstep, filter_orderedInsert_pos r q x (fun b hb => hcomp x b hqx hb) hqx _,
              filter_insertionSort_stable r q hcomp t]
          simp [List.filter_cons, hqx]

/-- C8: sorting by priority in the default (descending) direction yields
pairwise non-increasing priority rank under urgent=4 > high=3 > medium=2 >
low=1, is stable (each rank class keeps its input order), and permutes the
input. -/
theorem c8_sort_priority_descending_stable (tasks : List Task) :
    (sortTasks tasks SortOption.priority false).Pairwise
        (fun a b => priorityOrder b.priority ≤ priorityOrder a.priority)
    ∧ (∀ k : Int,
        (sortTasks tasks SortOption.priority false).filter
            (fun t => decide (priorityOrder t.priority = k))
          = tasks.filter (fun t => decide (priorityOrder t.priority = k)))
    ∧ (sortTasks tasks SortOption.priority false).Perm tasks := by
  have hrel : sortTasks tasks SortOption.priority false
      = List.insertionSort
          (fun a b => -(taskComparison SortOption.priority a b) ≤ 0) tasks := rfl
  refine ⟨?_, ?_, ?_⟩
  · rw [hrel]
    haveI : IsTotal Task (fun a b => -(taskComparison SortOption.priority a b) ≤ 0) :=
      ⟨fun a b => by simp only [taskComparison]; omega⟩
    haveI : IsTrans Task (fun a b => -(taskComparison SortOption.priority a b) ≤ 0) :=
      ⟨fun a b c => by simp only [taskComparison]; omega⟩
    have hs := List.sorted_insertionSort
        (fun a b => -(taskComparison SortOption.priority a b) ≤ 0) tasks
    exact List.Pairwise.imp
      (fun h => by simp only [taskComparison] at h; omega) hs
  · intro k
    rw [hrel]
    exact filter_insertionSort_stable _ _
      (fun a b ha hb => by
        simp only [decide_eq_true_eq] at ha hb
        simp only [taskComparison]
        omega) tasks
  · rw [hrel]
    exact List.perm_insertionSort _ tasks

/-- C9: membership in `getTasksDueToday` is exactly: the task is in the
collection and its due date lies in the half-open window from the start of
the current local day to the start of the next one; tasks without a due date
are excluded. -/
theorem c9_dueToday_membership (off now : Int) (tasks : List Task) (t : Task) :
    t ∈ getTasksDueToday off now tasks ↔
      t ∈ tasks ∧ ∃ d, t.dueDate = some d
        ∧ localDayFloor off now ≤ d ∧ d < localDayFloor off now + msPerDay := by
  simp only [getTasksDueToday, List.mem_filter]
  refine and_congr_right fun _ => ?_
  cases hdd : t.dueDate with
  | none => simp
  | some d =>
      simp only [Bool.and_eq_true, decide_eq_true_eq, Option.some.injEq]
      constructor
      · rintro ⟨h1, h2⟩
        refine ⟨d, rfl, ?_, ?_⟩ <;>
          (simp only [localDayFloor, msPerDay] at h1 h2 ⊢; omega)
      · rintro ⟨d', rfl, h1, h2⟩
        refine ⟨?_, ?_⟩ <;>
          (simp only [localDayFloor, msPerDay] at h1 h2 ⊢; omega)

/-- C2: the reconciler evaluated on the record `{title:"Buy milk",
priority:"critical"}` produces a task whose every field except `priority`
matches the claimed defaults, but whose `priority` is the unrecognized raw
string "critical" — outside the four valid literals the declared `Task` type
admits — rather than the coerced default "medium". -/
theorem c2_reconciler_passthrough_eval :
    processGeneratedTask "task_1" 0 c2Record
      = { id := "task_1", title := "Buy milk", description := "",
          priority := "critical", status := "todo", category := "general",
          createdAt := 0, updatedAt := 0, tags := [], aiGenerated := true,
          dueDate := none, sourceDocument := none }
    ∧ (processGeneratedTask "task_1" 0 c2Record).priority ∉ validPriorities := by
  exact ⟨by decide, by decide⟩

/-- C3 (counterexample): on a record whose dueDate string is "not-a-date",
the reconciled task does NOT omit the `dueDate` field — the key is present,
holding the stored invalid date (`some none`). -/
theorem c3_invalid_date_stored_counterexample :
    (processGeneratedTask "task_1" 0 c3Record).dueDate ≠ none
    ∧ (processGeneratedTask "task_1" 0 c3Record).dueDate = some none := by
  exact ⟨by decide, by decide⟩

/-- C3 (amended): the `dueDate` key is omitted exactly when the incoming
string is absent or empty; a present nonempty string is always stored as the
parsed `Date` — invalid (`none`) when unparseable — and no error is raised
(both reconciling routes are total functions). -/
theorem c3_dueDate_spread_policy (id docName : String) (now : Int) (td : TaskData) :
    ((td.dueDate = none ∨ td.dueDate = some "") →
      (processGeneratedTask id now td).dueDate = none
        ∧ (processExtractedTask docName id now td).dueDate = none)
    ∧ (∀ s, td.dueDate = some s → s ≠ "" →
      (processGeneratedTask id now td).dueDate = some (jsDateParse s)
        ∧ (processExtractedTask docName id now td).dueDate = some (jsDateParse s)) := by
  constructor
  · intro h
    rcases h with h | h <;>
      simp [processGeneratedTask, processExtractedTask, spreadDueDate, h]
  · intro s hs hne
    simp [processGeneratedTask, processExtractedTask, spreadDueDate, hs, hne]

/-- C3 (witness): the amended policy applied to the concrete record with the
unparseable string and to one with no dueDate at all. -/
theorem c3_dueDate_spread_policy_witness :
    (processGeneratedTask "task_1" 0 c3Record).dueDate = some (jsDateParse "not-a-date")
    ∧ (processGeneratedTask "task_1" 0 c2Record).dueDate = none :=
  ⟨((c3_dueDate_spread_policy "task_1" "doc" 0 c3Record).2 "not-a-date" rfl (by decide)).1,
   ((c3_dueDate_spread_policy "task_1" "doc" 0 c2Record).1 (Or.inl rfl)).1⟩

/-- C7: the normalizer is total and absorbs malformed AI output: whenever the
greedy span extraction or its parse fails, the chat method returns the
trimmed raw text with empty suggestion and task lists, the document method
returns the raw text as summary with four empty lists, and the task-array
method returns the empty list. -/
theorem c7_normalizer_fallback_total (s : String) :
    (extractParse '{' '}' s = none →
      parseAIResponse s = chatFallback s ∧ parseDocumentAnalysis s = docFallback s)
    ∧ (extractParse '[' ']' s = none → parseTasksFromResponse s = Json.arr []) := by
  refine ⟨fun h => ⟨?_, ?_⟩, fun h => ?_⟩
  · unfold parseAIResponse
    rw [h]
  · unfold parseDocumentAnalysis
    rw [h]
  · unfold parseTasksFromResponse
    rw [h]

/-- C7 (witness): the fallback behaviour on a reply containing no JSON. -/
theorem c7_normalizer_fallback_total_witness :
    parseAIResponse plainReply = chatFallback plainReply
    ∧ parseDocumentAnalysis plainReply = docFallback plainReply
    ∧ parseTasksFromResponse plainReply = Json.arr [] :=
  ⟨((c7_normalizer_fallback_total plainReply).1 rfl).1,
   ((c7_normalizer_fallback_total plainReply).1 rfl).2,
   (c7_normalizer_fallback_total plainReply).2 rfl⟩

/-- C5 (counterexample): on the input with two bracketed regions, the code
falls back (its greedy first-`{`-to-last-`}` span is not valid JSON) while
the claimed first-balanced-span policy parses the first region — the two
behaviours differ at this input. -/
theorem c5_first_span_counterexample :
    parseDocumentAnalysis c5Input = docFallback c5Input
    ∧ specParseDocumentAnalysis c5Input = Json.obj [("a", Json.str "x")]
    ∧ parseDocumentAnalysis c5Input ≠ specParseDocumentAnalysis c5Input := by
  refine ⟨rfl, rfl, fun h => ?_⟩
  have h2 : (parseDocumentAnalysis c5Input).getKey "a"
      = (specParseDocumentAnalysis c5Input).getKey "a" := by rw [h]
  have h3 : (Option.none : Option Json) = some (Json.str "x") := h2
  exact Option.noConfusion h3

/-- C5 (amended): the span the normalizer parses is the single greedy match
from the first opener to the last closer; if parsing that span fails, the
result is the typed default, with no retry on any other span. -/
theorem c5_greedy_span_no_retry (s : String) :
    (∀ sub, matchGreedySpan '{' '}' s = some sub → jsonParse sub = none →
      parseDocumentAnalysis s = docFallback s ∧ parseAIResponse s = chatFallback s)
    ∧ (∀ sub, matchGreedySpan '[' ']' s = some sub → jsonParse sub = none →
      parseTasksFromResponse s = Json.arr []) := by
  constructor
  · intro sub hspan hparse
    have hep : extractParse '{' '}' s = none := by
      unfold extractParse
      rw [hspan]
      exact hparse
    constructor
    · unfold parseDocumentAnalysis
      rw [hep]
    · unfold parseAIResponse
      rw [hep]
  · intro sub hspan hparse
    have hep : extractParse '[' ']' s = none := by
      unfold extractParse
      rw [hspan]
      exact hparse
    unfold parseTasksFromResponse
    rw [hep]

/-- C5 (witness): on `c5Input` the greedy span is the whole string, its
parse fails, and the document normalizer returns the fallback. -/
theorem c5_greedy_span_no_retry_witness :
    matchGreedySpan '{' '}' c5Input = some c5Input
    ∧ jsonParse c5Input = none
    ∧ parseDocumentAnalysis c5Input = docFallback c5Input :=
  ⟨by decide, rfl,
   ((c5_greedy_span_no_retry c5Input).1 c5Input (by decide) rfl).1⟩

/-- C4 (counterexample): the claimed result for the spec input carries
`extractedTasks` as an empty list, but the code returns the parsed object
as-is, which has no such key — the claim fails at this input. -/
theorem c4_missing_defaults_counterexample :
    c4Claimed.getKey "extractedTasks" = some (Json.arr [])
    ∧ parseDocumentAnalysis c4Input ≠ c4Claimed := by
  refine ⟨rfl, fun h => ?_⟩
  have h2 : (parseDocumentAnalysis c4Input).getKey "extractedTasks"
      = c4Claimed.getKey "extractedTasks" := by rw [h]
  have h3 : (Option.none : Option Json) = some (Json.arr []) := h2
  exact Option.noConfusion h3

/-- C4 (amended): on the spec input the parsed object is returned exactly as
parsed — summary "ok" and insights ["a","b"] — with the unsupplied keys
absent rather than defaulted to empty lists; the defaults appear only on the
total-failure fallback. -/
theorem c4_parsed_object_returned_as_is :
    parseDocumentAnalysis c4Input
      = Json.obj [("summary", Json.str "ok"),
                  ("insights", Json.arr [Json.str "a", Json.str "b"])]
    ∧ (parseDocumentAnalysis c4Input).getKey "summary" = some (Json.str "ok")
    ∧ (parseDocumentAnalysis c4Input).getKey "extractedTasks" = none
    ∧ (parseDocumentAnalysis c4Input).getKey "keyTopics" = none
    ∧ (parseDocumentAnalysis c4Input).getKey "actionItems" = none :=
  ⟨rfl, rfl, rfl, rfl, rfl⟩

/-- C6 (counterexample): an update object that supplies `id` and `createdAt`
DOES overwrite them — `{...task, ...updates}` spreads the changes after the
task, so neither field is protected. -/
theorem c6_overwrite_counterexample :
    (updateTask exTask c6Update 50).createdAt ≠ exTask.createdAt
    ∧ (updateTask exTask c6Update 50).id ≠ exTask.id := by
  exact ⟨by decide, by decide⟩

/-- C6 (amended): `updateTask` preserves `id` and `createdAt` whenever the
change set does not supply those keys, and stamps `updatedAt` with the
current time, which is ≥ the previous `updatedAt` whenever the clock has not
run backwards. -/
theorem c6_update_keeps_id_createdAt_when_absent (task : Task) (updates : TaskUpdate)
    (now : Int) (hid : updates.id = none) (hcr : updates.createdAt = none)
    (hclock : task.updatedAt ≤ now) :
    (updateTask task updates now).id = task.id
    ∧ (updateTask task updates now).createdAt = task.createdAt
    ∧ task.updatedAt ≤ (updateTask task updates now).updatedAt := by
  refine ⟨?_, ?_, ?_⟩ <;> simp [updateTask, hid, hcr, hclock]

/-- C6 (witness): the amended statement at the concrete task and the empty
update, with the clock at 7. -/
theorem c6_update_keeps_id_createdAt_when_absent_witness :
    (updateTask exTask emptyUpdate 7).id = exTask.id
    ∧ (updateTask exTask emptyUpdate 7).createdAt = exTask.createdAt
    ∧ exTask.updatedAt ≤ (updateTask exTask emptyUpdate 7).updatedAt :=
  c6_update_keeps_id_createdAt_when_absent exTask emptyUpdate 7 rfl rfl (by decide)

/-- C10: every field of the updated task other than `updatedAt` whose key the
change set does not supply equals the corresponding field of the input task. -/
theorem c10_update_frame (task : Task) (updates : TaskUpdate) (now : Int) :
    (updates.id = none → (updateTask task updates now).id = task.id)
    ∧ (updates.title = none → (updateTask task updates now).title = task.title)
    ∧ (updates.description = none →
        (updateTask task updates now).description = task.description)
    ∧ (updates.priority = none → (updateTask task updates now).priority = task.priority)
    ∧ (updates.status = none → (updateTask task updates now).status = task.status)
    ∧ (updates.category = none → (updateTask task updates now).category = task.category)
    ∧ (updates.dueDate = none → (updateTask task updates now).dueDate = task.dueDate)
    ∧ (updates.createdAt = none →
        (updateTask task updates now).createdAt = task.createdAt)
    ∧ (updates.tags = none → (updateTask task updates now).tags = task.tags)
    ∧ (updates.aiGenerated = none →
        (updateTask task updates now).aiGenerated = task.aiGenerated)
    ∧ (updates.sourceDocument = none →
        (updateTask task updates now).sourceDocument = task.sourceDocument) := by
  refine ⟨?_, ?_, ?_, ?_, ?_, ?_, ?_, ?_, ?_, ?_, ?_⟩ <;>
    intro h <;> simp [updateTask, h]

/-- C10 (witness): the frame property at the concrete task and the empty
update. -/
theorem c10_update_frame_witness :
    (updateTask exTask emptyUpdate 7).id = exTask.id
    ∧ (updateTask exTask emptyUpdate 7).title = exTask.title
    ∧ (updateTask exTask emptyUpdate 7).dueDate = exTask.dueDate
    ∧ (updateTask exTask emptyUpdate 7).tags = exTask.tags :=
  ⟨(c10_update_frame exTask emptyUpdate 7).1 rfl,
   (c10_update_frame exTask emptyUpdate 7).2.1 rfl,
   (c10_update_frame exTask emptyUpdate 7).2.2.2.2.2.2.1 rfl,
   (c10_update_frame exTask emptyUpdate 7).2.2.2.2.2.2.2.2.1 rfl⟩

end TaskApp
